import Mathlib

/-! Verification of the Sora video-generation client (`soraclient.py`) and of
the GPT image client (`gptimageclient.py`,
`Image/FoundryImageClient/GptImageClient.py`).

The polling loop, job submission, result fetching and artifact download are
embedded as pure Lean functions over an abstract script of transport
outcomes.  Wall-clock time is modelled by a counter that starts at 0 and
advances by `pollInterval` at every `time.sleep(poll_interval)` /
`asyncio.sleep(poll_interval)` call (a status query itself is instantaneous
in the model); the Python loop guard `time.time() - start_time < timeout`
becomes `elapsed < timeout`.  The sync and async variants of each Python
method are textually identical up to `await`, so a single Lean function
embeds both. -/

namespace SoraClient

/-- One artifact descriptor inside a job.  The Python code reads
`videos[0].get("id")`, which yields `None` when the key is absent, hence the
optional field. -/
structure Generation where
  id : Option String
deriving DecidableEq, Repr

/-- The parsed JSON body of a 200 status response, as the Python code consumes
it: `job_data.get('status')` (absent key gives `None`),
`job_data.get('error', \x7b\x7d).get('message', 'Unknown error')` (collapsed here to
an optional message), and `completed_job.get('generations', [])` (an absent
key gives the empty list, so absent and empty coincide in the model). -/
structure JobData where
  status : Option String
  errorMessage : Option String
  generations : List Generation
deriving DecidableEq, Repr

/-- Outcome of one status query against the transport: either the HTTP call
raised an exception whose text is `msg` (network failure, or a JSON decode
failure of the body), or the service answered with a status code, a body
text, and — when the code is 200 — the parsed job body. -/
inductive QueryOutcome where
  | netErr (msg : String)
  | response (statusCode : Nat) (text : String) (job : JobData)
deriving DecidableEq, Repr

/-- Python's substring test `needle in hay`. -/
def strContains (hay needle : String) : Bool :=
  decide (needle.data <:+: hay.data)

/-- The classification performed by the `except` clause of the polling loop:
`"Job failed" in str(e) or "Job cancelled" in str(e) or "Job expired" in str(e)`. -/
def isTerminalMsg (msg : String) : Bool :=
  strContains msg "Job failed" || strContains msg "Job cancelled" ||
    strContains msg "Job expired"

/-- Exception text raised on a non-200 status response:
`Failed to get job status: ... - ...` built from the status code and the
body text. -/
def statusQueryFailMsg (code : Nat) (text : String) : String :=
  "Failed to get job status: " ++ toString code ++ " - " ++ text

/-- Exception text raised on a failed job: `Job failed: ...` where the tail
is `job_data.get('error', \x7b\x7d).get('message', 'Unknown error')`. -/
def failedMsg (job : JobData) : String :=
  "Job failed: " ++ job.errorMessage.getD "Unknown error"

/-- Exception text raised when the poll deadline passes:
`Job polling timeout after ... seconds`. -/
def timeoutMsg (timeout : Nat) : String :=
  "Job polling timeout after " ++ toString timeout ++ " seconds"

/-- What one iteration of the polling loop body decides to do. -/
inductive StepAction where
  | ret (job : JobData)
  | raiseMsg (msg : String)
  | cont
deriving DecidableEq, Repr

/-- The `except Exception as e` handler of the polling loop: re-raise when
the exception text looks like one of the loop's own terminal-state raises,
otherwise log a warning, sleep one interval and continue. -/
def handleExc (msg : String) : StepAction :=
  if isTerminalMsg msg then .raiseMsg msg else .cont

/-- One iteration of the polling loop body (the `try` block together with its
`except` handler), common to `_poll_job_status_sync` and
`_poll_job_status_async`:
a non-200 response raises `statusQueryFailMsg`, a 200 response dispatches on
`status` — `succeeded` returns the job, `failed` raises `failedMsg`,
`cancelled`/`expired` raise `Job <status>`, anything else falls through to
the sleep; every raise from inside the `try` passes through the handler. -/
def stepOutcome (o : QueryOutcome) : StepAction :=
  match o with
  | .netErr msg => handleExc msg
  | .response code text job =>
    if code ≠ 200 then handleExc (statusQueryFailMsg code text)
    else
      match job.status with
      | some s =>
        if s = "succeeded" then .ret job
        else if s = "failed" then handleExc (failedMsg job)
        else if s = "cancelled" ∨ s = "expired" then handleExc ("Job " ++ s)
        else .cont
      | none => .cont

/-- How a polling run ends.  `raised` is a propagated exception identified by
its text, `timedOut` is the raise placed after the `while` loop, and
`exhausted` is a model artifact: the outcome script ended before the loop
did. -/
inductive PollResult where
  | success (job : JobData)
  | raised (msg : String)
  | timedOut (msg : String)
  | exhausted
deriving DecidableEq, Repr

/-- The polling loop of `_poll_job_status_sync` / `_poll_job_status_async`,
run against a script of query outcomes from the given elapsed time.  Returns
how the call ends together with the number of status queries performed. -/
def pollAux (timeout pollInterval : Nat) : List QueryOutcome → Nat → PollResult × Nat
  | [], elapsed =>
    if timeout ≤ elapsed then (.timedOut (timeoutMsg timeout), 0) else (.exhausted, 0)
  | o :: rest, elapsed =>
    if timeout ≤ elapsed then (.timedOut (timeoutMsg timeout), 0)
    else
      match stepOutcome o with
      | .ret job => (.success job, 1)
      | .raiseMsg msg => (.raised msg, 1)
      | .cont =>
        let r := pollAux timeout pollInterval rest (elapsed + pollInterval)
        (r.1, r.2 + 1)

/-- `_poll_job_status_sync(job_id, headers, timeout, poll_interval)` and its
async twin: the loop starts with zero elapsed time. -/
def pollJobStatus (timeout pollInterval : Nat) (outcomes : List QueryOutcome) :
    PollResult × Nat :=
  pollAux timeout pollInterval outcomes 0

/-- A query outcome that makes the loop body raise and the handler swallow it:
a transport exception, or a non-200 response, whose exception text does not
contain any of the three terminal markers. -/
def toleratedFailure (o : QueryOutcome) : Bool :=
  match o with
  | .netErr m => !isTerminalMsg m
  | .response code text _ =>
    decide (code ≠ 200) && !isTerminalMsg (statusQueryFailMsg code text)

theorem strContains_pre_post (pre needle post : String) :
    strContains (pre ++ needle ++ post) needle = true := by
  simp only [strContains, decide_eq_true_eq, String.data_append]
  exact ⟨pre.data, post.data, rfl⟩

theorem strContains_post (needle post : String) :
    strContains (needle ++ post) needle = true := by
  simpa using strContains_pre_post "" needle post

theorem strContains_pre (pre needle : String) :
    strContains (pre ++ needle) needle = true := by
  simpa using strContains_pre_post pre needle ""

theorem isTerminalMsg_failedMsg (job : JobData) : isTerminalMsg (failedMsg job) = true := by
  have h : failedMsg job = "Job failed" ++ (": " ++ job.errorMessage.getD "Unknown error") := by
    rw [failedMsg, ← String.append_assoc]
    rfl
  rw [isTerminalMsg, h, strContains_post]
  simp

theorem handleExc_raise {m msg : String} (h : handleExc m = .raiseMsg msg) :
    isTerminalMsg msg = true ∧ m = msg := by
  by_cases ht : isTerminalMsg m
  · rw [handleExc, if_pos ht] at h
    cases h
    exact ⟨ht, rfl⟩
  · rw [handleExc, if_neg ht] at h
    cases h

theorem handleExc_ne_ret {m : String} {job : JobData} : handleExc m ≠ .ret job := by
  rw [handleExc]
  split <;> simp

theorem stepOutcome_ret {o : QueryOutcome} {job : JobData}
    (h : stepOutcome o = .ret job) : job.status = some "succeeded" := by
  cases o with
  | netErr m => exact absurd h handleExc_ne_ret
  | response code text j =>
    rw [stepOutcome] at h
    split at h
    · exact absurd h handleExc_ne_ret
    · split at h
      next s hs =>
        split at h
        next hsu =>
          cases h
          rw [hs, hsu]
        next =>
          split at h
          · exact absurd h handleExc_ne_ret
          · split at h
            · exact absurd h handleExc_ne_ret
            · cases h
      next => cases h

theorem stepOutcome_raise {o : QueryOutcome} {msg : String}
    (h : stepOutcome o = .raiseMsg msg) : isTerminalMsg msg = true := by
  cases o with
  | netErr m => exact (handleExc_raise h).1
  | response code text j =>
    rw [stepOutcome] at h
    split at h
    · exact (handleExc_raise h).1
    · split at h
      next s hs =>
        split at h
        next => cases h
        next =>
          split at h
          · exact (handleExc_raise h).1
          · split at h
            · exact (handleExc_raise h).1
            · cases h
      next => cases h

theorem toleratedFailure_cont {o : QueryOutcome} (h : toleratedFailure o = true) :
    stepOutcome o = .cont := by
  cases o with
  | netErr m =>
    rw [toleratedFailure] at h
    rw [stepOutcome, handleExc, if_neg]
    simpa using h
  | response code text j =>
    rw [toleratedFailure, Bool.and_eq_true, decide_eq_true_eq] at h
    rw [stepOutcome, if_pos h.1, handleExc, if_neg]
    simpa using h.2

theorem pollAux_cons (timeout pollInterval : Nat) (o : QueryOutcome)
    (rest : List QueryOutcome) (elapsed : Nat) :
    pollAux timeout pollInterval (o :: rest) elapsed =
      if timeout ≤ elapsed then (.timedOut (timeoutMsg timeout), 0)
      else
        match stepOutcome o with
        | .ret job => (.success job, 1)
        | .raiseMsg msg => (.raised msg, 1)
        | .cont =>
          let r := pollAux timeout pollInterval rest (elapsed + pollInterval)
          (r.1, r.2 + 1) := rfl

theorem pollAux_trichotomy (timeout pollInterval : Nat) (outcomes : List QueryOutcome)
    (elapsed : Nat) (hlen : timeout ≤ elapsed + outcomes.length * pollInterval) :
    (∃ job, (pollAux timeout pollInterval outcomes elapsed).1 = .success job ∧
        job.status = some "succeeded") ∨
    (∃ msg, (pollAux timeout pollInterval outcomes elapsed).1 = .raised msg ∧
        isTerminalMsg msg = true) ∨
    (pollAux timeout pollInterval outcomes elapsed).1 = .timedOut (timeoutMsg timeout) := by
  induction outcomes generalizing elapsed with
  | nil =>
    right; right
    simp only [List.length_nil, Nat.zero_mul, Nat.add_zero] at hlen
    simp [pollAux, hlen]
  | cons o rest ih =>
    by_cases hel : timeout ≤ elapsed
    · right; right
      simp [pollAux_cons, hel]
    · cases hso : stepOutcome o with
      | ret job =>
        left
        exact ⟨job, by simp [pollAux_cons, hel, hso], stepOutcome_ret hso⟩
      | raiseMsg msg =>
        right; left
        exact ⟨msg, by simp [pollAux_cons, hel, hso], stepOutcome_raise hso⟩
      | cont =>
        have harith : timeout ≤ (elapsed + pollInterval) + rest.length * pollInterval := by
          rw [List.length_cons, Nat.succ_mul] at hlen
          omega
        have := ih (elapsed + pollInterval) harith
        simpa [pollAux_cons, hel, hso] using this

theorem pollAux_all_cont (timeout pollInterval : Nat) (outcomes : List QueryOutcome)
    (elapsed : Nat) (hcont : ∀ o ∈ outcomes, stepOutcome o = .cont)
    (hlen : timeout ≤ elapsed + outcomes.length * pollInterval) :
    (pollAux timeout pollInterval outcomes elapsed).1 = .timedOut (timeoutMsg timeout) ∧
    ∀ i < (pollAux timeout pollInterval outcomes elapsed).2,
      elapsed + i * pollInterval < timeout := by
  induction outcomes generalizing elapsed with
  | nil =>
    simp only [List.length_nil, Nat.zero_mul, Nat.add_zero] at hlen
    constructor
    · simp [pollAux, hlen]
    · intro i hi
      simp [pollAux, hlen] at hi
  | cons o rest ih =>
    by_cases hel : timeout ≤ elapsed
    · constructor
      · simp [pollAux_cons, hel]
      · intro i hi
        simp [pollAux_cons, hel] at hi
    · have hso : stepOutcome o = .cont := hcont o (List.mem_cons_self o rest)
      have harith : timeout ≤ (elapsed + pollInterval) + rest.length * pollInterval := by
        rw [List.length_cons, Nat.succ_mul] at hlen
        omega
      have hrest : ∀ o ∈ rest, stepOutcome o = .cont := fun o ho =>
        hcont o (List.mem_cons_of_mem _ ho)
      obtain ⟨h1, h2⟩ := ih (elapsed + pollInterval) hrest harith
      constructor
      · simpa [pollAux_cons, hel, hso] using h1
      · intro i hi
        rw [pollAux_cons, if_neg hel, hso] at hi
        simp only at hi
        cases i with
        | zero => omega
        | succ j =>
          have hj := h2 j (by omega)
          calc elapsed + (j + 1) * pollInterval
              = (elapsed + pollInterval) + j * pollInterval := by ring
            _ < timeout := hj

theorem pollAux_failure_skip (timeout pollInterval elapsed : Nat) (o : QueryOutcome)
    (rest : List QueryOutcome) (hf : toleratedFailure o = true)
    (hel : elapsed < timeout) :
    pollAux timeout pollInterval (o :: rest) elapsed =
      ((pollAux timeout pollInterval rest (elapsed + pollInterval)).1,
       (pollAux timeout pollInterval rest (elapsed + pollInterval)).2 + 1) := by
  rw [pollAux_cons, if_neg (by omega), toleratedFailure_cont hf]

theorem pollAux_cont_then_success (timeout pollInterval : Nat)
    (pre : List QueryOutcome) (sjob : JobData) (st : String)
    (rest : List QueryOutcome) (elapsed : Nat)
    (hpre : ∀ o ∈ pre, stepOutcome o = .cont)
    (hsucc : sjob.status = some "succeeded")
    (htime : elapsed + pre.length * pollInterval < timeout) :
    pollAux timeout pollInterval (pre ++ .response 200 st sjob :: rest) elapsed =
      (.success sjob, pre.length + 1) := by
  induction pre generalizing elapsed with
  | nil =>
    simp only [List.nil_append, List.length_nil, Nat.zero_mul, Nat.add_zero] at *
    rw [pollAux_cons, if_neg (by omega)]
    have : stepOutcome (.response 200 st sjob) = .ret sjob := by
      rw [stepOutcome]
      simp [hsucc]
    rw [this]
  | cons o pre ih =>
    have hel : ¬ timeout ≤ elapsed := by
      rw [List.length_cons, Nat.succ_mul] at htime
      omega
    have hso : stepOutcome o = .cont := hpre o (List.mem_cons_self o pre)
    have harith : (elapsed + pollInterval) + pre.length * pollInterval < timeout := by
      rw [List.length_cons, Nat.succ_mul] at htime
      omega
    have hpre2 : ∀ o ∈ pre, stepOutcome o = .cont := fun o ho =>
      hpre o (List.mem_cons_of_mem _ ho)
    have := ih (elapsed + pollInterval) hpre2 harith
    rw [List.cons_append, pollAux_cons, if_neg hel, hso]
    simp [this]

/-- Claim C1: every invocation of the job poller, on any job id, headers,
timeout and poll interval, and on any scripted sequence of status-query
outcomes long enough to cover the deadline, ends in exactly one of three
ways: it returns a job whose status is `succeeded`, it raises an exception
classified as a terminal failure (its text carries one of the markers
`Job failed` / `Job cancelled` / `Job expired`), or it raises the polling
timeout; it never returns a job with a non-terminal status. -/
theorem poll_always_terminal (timeout pollInterval : Nat)
    (outcomes : List QueryOutcome)
    (hlen : timeout ≤ outcomes.length * pollInterval) :
    (∃ job, (pollJobStatus timeout pollInterval outcomes).1 = .success job ∧
        job.status = some "succeeded") ∨
    (∃ msg, (pollJobStatus timeout pollInterval outcomes).1 = .raised msg ∧
        isTerminalMsg msg = true) ∨
    (pollJobStatus timeout pollInterval outcomes).1 = .timedOut (timeoutMsg timeout) :=
  pollAux_trichotomy timeout pollInterval outcomes 0 (by omega)

theorem poll_always_terminal_witness :
    (∃ job, (pollJobStatus 30 10
        [.response 200 "" ⟨some "queued", none, []⟩,
         .response 200 "" ⟨some "queued", none, []⟩,
         .response 200 "" ⟨some "queued", none, []⟩]).1 = .success job ∧
        job.status = some "succeeded") ∨
    (∃ msg, (pollJobStatus 30 10
        [.response 200 "" ⟨some "queued", none, []⟩,
         .response 200 "" ⟨some "queued", none, []⟩,
         .response 200 "" ⟨some "queued", none, []⟩]).1 = .raised msg ∧
        isTerminalMsg msg = true) ∨
    (pollJobStatus 30 10
        [.response 200 "" ⟨some "queued", none, []⟩,
         .response 200 "" ⟨some "queued", none, []⟩,
         .response 200 "" ⟨some "queued", none, []⟩]).1 = .timedOut (timeoutMsg 30) :=
  poll_always_terminal 30 10
    [.response 200 "" ⟨some "queued", none, []⟩,
     .response 200 "" ⟨some "queued", none, []⟩,
     .response 200 "" ⟨some "queued", none, []⟩] (by decide)

theorem isTerminalMsg_cancelled : isTerminalMsg "Job cancelled" = true := by decide

theorem isTerminalMsg_expired : isTerminalMsg "Job expired" = true := by decide

theorem stepOutcome_failed {j : JobData} (t : String) (hf : j.status = some "failed") :
    stepOutcome (.response 200 t j) = .raiseMsg (failedMsg j) := by
  rw [stepOutcome, hf]
  simp [handleExc, isTerminalMsg_failedMsg]

theorem stepOutcome_cancelled {j : JobData} (t : String)
    (hc : j.status = some "cancelled") :
    stepOutcome (.response 200 t j) = .raiseMsg "Job cancelled" := by
  rw [stepOutcome, hc]
  simp [handleExc, isTerminalMsg_cancelled]

theorem stepOutcome_expired {j : JobData} (t : String)
    (he : j.status = some "expired") :
    stepOutcome (.response 200 t j) = .raiseMsg "Job expired" := by
  rw [stepOutcome, he]
  simp [handleExc, isTerminalMsg_expired]

/-- Claim C2: when a successful status query observes `failed` while the
deadline has not passed, the poller immediately propagates `Job failed: ...`
carrying the job's `error.message` (defaulting to `Unknown error`), performs
exactly one query — whatever outcomes the script would have offered next —
and does not retry; a first observation of `cancelled` or `expired` likewise
immediately raises `Job cancelled` / `Job expired` with no further query. -/
theorem poll_terminal_short_circuit (timeout pollInterval elapsed : Nat)
    (jf jc je : JobData) (restf restc reste : List QueryOutcome)
    (tf tc te : String)
    (hel : elapsed < timeout)
    (hf : jf.status = some "failed") (hc : jc.status = some "cancelled")
    (he : je.status = some "expired") :
    (pollAux timeout pollInterval (.response 200 tf jf :: restf) elapsed
        = (.raised (failedMsg jf), 1) ∧
      strContains (failedMsg jf) (jf.errorMessage.getD "Unknown error") = true) ∧
    pollAux timeout pollInterval (.response 200 tc jc :: restc) elapsed
        = (.raised "Job cancelled", 1) ∧
    pollAux timeout pollInterval (.response 200 te je :: reste) elapsed
        = (.raised "Job expired", 1) := by
  refine ⟨⟨?_, ?_⟩, ?_, ?_⟩
  · rw [pollAux_cons, if_neg (by omega), stepOutcome_failed tf hf]
  · rw [failedMsg]
    exact strContains_pre _ _
  · rw [pollAux_cons, if_neg (by omega), stepOutcome_cancelled tc hc]
  · rw [pollAux_cons, if_neg (by omega), stepOutcome_expired te he]

theorem poll_terminal_short_circuit_witness :
    (pollAux 30 10 [.response 200 "" ⟨some "failed", some "quota exceeded", []⟩] 0
        = (.raised (failedMsg ⟨some "failed", some "quota exceeded", []⟩), 1) ∧
      strContains (failedMsg ⟨some "failed", some "quota exceeded", []⟩)
        ((⟨some "failed", some "quota exceeded", []⟩ : JobData).errorMessage.getD
          "Unknown error") = true) ∧
    pollAux 30 10 [.response 200 "" ⟨some "cancelled", none, []⟩] 0
        = (.raised "Job cancelled", 1) ∧
    pollAux 30 10 [.response 200 "" ⟨some "expired", none, []⟩] 0
        = (.raised "Job expired", 1) :=
  poll_terminal_short_circuit 30 10 0
    ⟨some "failed", some "quota exceeded", []⟩
    ⟨some "cancelled", none, []⟩ ⟨some "expired", none, []⟩
    [] [] [] "" "" "" (by decide) rfl rfl rfl

/-- Claim C3 counterexample: a non-200 status response whose body text is
`Job failed` is NOT tolerated — the poller re-raises it after a single query
and never reaches the `succeeded` outcome that follows, refuting the claim
for "arbitrary body text". -/
theorem poll_body_text_collision :
    pollJobStatus 100 10
      [.response 500 "Job failed" ⟨none, none, []⟩,
       .response 200 "" ⟨some "succeeded", none, []⟩]
      = (.raised "Failed to get job status: 500 - Job failed", 1) ∧
    (pollJobStatus 100 10
      [.response 500 "Job failed" ⟨none, none, []⟩,
       .response 200 "" ⟨some "succeeded", none, []⟩]).1
      ≠ .success ⟨some "succeeded", none, []⟩ := by decide

/-- Claim C3 (amended): every query failure whose exception text does not
contain `Job failed`, `Job cancelled` or `Job expired` — network errors, and
non-200 responses whose composed error text avoids those markers — makes the
poller sleep one interval and continue the loop; in particular any sequence
of such failures followed by a `succeeded` observation before the deadline
yields the succeeded job. -/
theorem poll_tolerates_benign_failures (timeout pollInterval : Nat) :
    (∀ (o : QueryOutcome) (rest : List QueryOutcome) (elapsed : Nat),
        toleratedFailure o = true → elapsed < timeout →
        pollAux timeout pollInterval (o :: rest) elapsed =
          ((pollAux timeout pollInterval rest (elapsed + pollInterval)).1,
           (pollAux timeout pollInterval rest (elapsed + pollInterval)).2 + 1)) ∧
    (∀ (fails : List QueryOutcome) (sjob : JobData) (st : String)
        (rest : List QueryOutcome),
        (∀ o ∈ fails, toleratedFailure o = true) →
        sjob.status = some "succeeded" →
        fails.length * pollInterval < timeout →
        pollJobStatus timeout pollInterval
            (fails ++ .response 200 st sjob :: rest) =
          (.success sjob, fails.length + 1)) := by
  constructor
  · exact fun o rest elapsed hf hel =>
      pollAux_failure_skip timeout pollInterval elapsed o rest hf hel
  · intro fails sjob st rest hfails hs ht
    exact pollAux_cont_then_success timeout pollInterval fails sjob st rest 0
      (fun o ho => toleratedFailure_cont (hfails o ho)) hs (by omega)

theorem poll_tolerates_benign_failures_witness :
    pollAux 100 10 [.netErr "connection refused"] 0 =
      ((pollAux 100 10 [] 10).1, (pollAux 100 10 [] 10).2 + 1) ∧
    pollJobStatus 100 10
        ([.netErr "connection refused",
          .response 503 "Service Unavailable" ⟨none, none, []⟩] ++
          QueryOutcome.response 200 "" ⟨some "succeeded", none, []⟩ :: []) =
      (.success ⟨some "succeeded", none, []⟩, 3) :=
  ⟨(poll_tolerates_benign_failures 100 10).1 (.netErr "connection refused") [] 0
      (by decide) (by decide),
   (poll_tolerates_benign_failures 100 10).2
      [.netErr "connection refused",
       .response 503 "Service Unavailable" ⟨none, none, []⟩]
      ⟨some "succeeded", none, []⟩ "" [] (by decide) rfl (by decide)⟩

/-- Claim C4: when every scripted observation is non-terminal (a `queued`,
`running`, unrecognized or absent status, or a tolerated query failure) and
the script covers the deadline, the poller raises the polling-timeout error
whose text reports the timeout value, and every status query it performed
was initiated strictly before the deadline (query `i` starts at elapsed time
`i * pollInterval`). -/
theorem poll_deadline_timeout (timeout pollInterval : Nat)
    (outcomes : List QueryOutcome)
    (hcont : ∀ o ∈ outcomes, stepOutcome o = .cont)
    (hlen : timeout ≤ outcomes.length * pollInterval) :
    (pollJobStatus timeout pollInterval outcomes).1 = .timedOut (timeoutMsg timeout) ∧
    strContains (timeoutMsg timeout) (toString timeout) = true ∧
    ∀ i < (pollJobStatus timeout pollInterval outcomes).2,
      i * pollInterval < timeout := by
  obtain ⟨h1, h2⟩ := pollAux_all_cont timeout pollInterval outcomes 0 hcont (by omega)
  refine ⟨h1, ?_, ?_⟩
  · rw [timeoutMsg]
    exact strContains_pre_post _ _ _
  · intro i hi
    have := h2 i hi
    omega

theorem poll_deadline_timeout_witness :
    (pollJobStatus 30 10
      [.response 200 "" ⟨some "queued", none, []⟩,
       .response 200 "" ⟨some "queued", none, []⟩,
       .response 200 "" ⟨some "queued", none, []⟩]).1 = .timedOut (timeoutMsg 30) ∧
    strContains (timeoutMsg 30) (toString 30) = true ∧
    ∀ i < (pollJobStatus 30 10
      [.response 200 "" ⟨some "queued", none, []⟩,
       .response 200 "" ⟨some "queued", none, []⟩,
       .response 200 "" ⟨some "queued", none, []⟩]).2, i * 10 < 30 :=
  poll_deadline_timeout 30 10
    [.response 200 "" ⟨some "queued", none, []⟩,
     .response 200 "" ⟨some "queued", none, []⟩,
     .response 200 "" ⟨some "queued", none, []⟩]
    (by decide) (by decide)

/-- A credential configuration: either a static API key or a federated
credential whose `k`-th token acquisition yields `tokens k`
(`_get_headers_sync` / `_get_headers_async` request a fresh token on every
call). -/
structure CredConfig where
  apiKey : Option String
  tokens : Nat → String

/-- `_get_headers_sync` / `_get_headers_async`: the header set produced by
the `k`-th credential resolution performed during one orchestrator call. -/
def resolveHeaders (cfg : CredConfig) (k : Nat) : List (String × String) :=
  match cfg.apiKey with
  | some key => [("api-key", key), ("Content-Type", "application/json")]
  | none => [("Authorization", "Bearer " ++ cfg.tokens k),
             ("Content-Type", "application/json")]

/-- Response of the artifact download GET. -/
structure DownloadResp where
  statusCode : Nat
  content : List Nat
  text : String

/-- The remote service as one orchestrator call observes it: the submission
response (status code, optional `id` field of its JSON body, body text), the
script of poll query outcomes, and the download response for each URL. -/
structure ServiceModel where
  submitCode : Nat
  submitId : Option String
  submitText : String
  pollOutcomes : List QueryOutcome
  download : String → DownloadResp

/-- Python str() of an optional value interpolated into an f-string: `None`
prints as the four characters `None`. -/
def pyStr (s : Option String) : String :=
  match s with
  | some v => v
  | none => "None"

/-- The download URL built by `generate_video_sync` / `generate_video_async`
from `videos[0].get("id")`, with `videopath = openai/v1/video/generations`
and `params = ?api-version=...`. -/
def mkVideoUrl (endpoint apiVersion : String) (generationId : Option String) : String :=
  endpoint ++ "/" ++ "openai/v1/video/generations" ++ "/" ++ pyStr generationId ++
    "/content/video" ++ "?api-version=" ++ apiVersion

/-- Exception text of a failed submission:
`Failed to create video job: ... - ...`. -/
def submitFailMsg (code : Nat) (text : String) : String :=
  "Failed to create video job: " ++ toString code ++ " - " ++ text

/-- Exception text of a failed artifact download:
`Failed to download video: ... - ...`. -/
def downloadFailMsg (code : Nat) (text : String) : String :=
  "Failed to download video: " ++ toString code ++ " - " ++ text

/-- Instrumented account of one `generate_video_sync` / `generate_video_async`
call: the returned bytes or the propagated exception text, how many
credential resolutions were performed, and which header set each stage used.
`pollHeaders` records the single header dict handed to the poller — the code
passes that one dict to every status GET of the run. -/
structure GVRun where
  result : Except String (List Nat)
  resolutions : Nat
  submitHeaders : List (String × String)
  jobId : Option String
  pollHeaders : Option (List (String × String))
  pollQueries : Nat
  downloadUrl : Option String
  downloadHeaders : Option (List (String × String))

/-- `generate_video_sync` / `generate_video_async`: resolve headers, POST the
job (non-201 raises `submitFailMsg`; a missing or empty `id` raises the
no-job-id error), poll with the same headers and the default poll interval
of 10, check `generations`, build the download URL, and download — where
`_download_video_sync` / `_download_video_async` resolve headers a second
time before their GET. -/
def generateVideo (cfg : CredConfig) (endpoint apiVersion : String)
    (svc : ServiceModel) (timeout : Nat) : GVRun :=
  let h0 := resolveHeaders cfg 0
  if svc.submitCode ≠ 201 then
    { result := .error (submitFailMsg svc.submitCode svc.submitText),
      resolutions := 1, submitHeaders := h0, jobId := none, pollHeaders := none,
      pollQueries := 0, downloadUrl := none, downloadHeaders := none }
  else
    match svc.submitId with
    | none =>
      { result := .error "No job ID returned from video generation API",
        resolutions := 1, submitHeaders := h0, jobId := none, pollHeaders := none,
        pollQueries := 0, downloadUrl := none, downloadHeaders := none }
    | some jid =>
      if jid = "" then
        { result := .error "No job ID returned from video generation API",
          resolutions := 1, submitHeaders := h0, jobId := none, pollHeaders := none,
          pollQueries := 0, downloadUrl := none, downloadHeaders := none }
      else
        let pr := pollJobStatus timeout 10 svc.pollOutcomes
        match pr.1 with
        | .success job =>
          match job.generations with
          | [] =>
            { result := .error "No videos found in completed job",
              resolutions := 1, submitHeaders := h0, jobId := some jid,
              pollHeaders := some h0, pollQueries := pr.2, downloadUrl := none,
              downloadHeaders := none }
          | g :: _ =>
            let url := mkVideoUrl endpoint apiVersion g.id
            if url = "" then
              { result := .error "No video URL found in completed job",
                resolutions := 1, submitHeaders := h0, jobId := some jid,
                pollHeaders := some h0, pollQueries := pr.2, downloadUrl := none,
                downloadHeaders := none }
            else
              let h1 := resolveHeaders cfg 1
              let resp := svc.download url
              if resp.statusCode ≠ 200 then
                { result := .error (downloadFailMsg resp.statusCode resp.text),
                  resolutions := 2, submitHeaders := h0, jobId := some jid,
                  pollHeaders := some h0, pollQueries := pr.2,
                  downloadUrl := some url, downloadHeaders := some h1 }
              else
                { result := .ok resp.content, resolutions := 2,
                  submitHeaders := h0, jobId := some jid, pollHeaders := some h0,
                  pollQueries := pr.2, downloadUrl := some url,
                  downloadHeaders := some h1 }
        | .raised m =>
          { result := .error m, resolutions := 1, submitHeaders := h0,
            jobId := some jid, pollHeaders := some h0, pollQueries := pr.2,
            downloadUrl := none, downloadHeaders := none }
        | .timedOut m =>
          { result := .error m, resolutions := 1, submitHeaders := h0,
            jobId := some jid, pollHeaders := some h0, pollQueries := pr.2,
            downloadUrl := none, downloadHeaders := none }
        | .exhausted =>
          { result := .error "model artifact: poll outcome script exhausted",
            resolutions := 1, submitHeaders := h0, jobId := some jid,
            pollHeaders := some h0, pollQueries := pr.2, downloadUrl := none,
            downloadHeaders := none }

theorem mkVideoUrl_ne_empty (endpoint apiVersion : String) (gid : Option String) :
    mkVideoUrl endpoint apiVersion gid ≠ "" := by
  intro h
  have h2 : (mkVideoUrl endpoint apiVersion gid).data = [] := by
    rw [h]
  rw [mkVideoUrl] at h2
  simp [String.data_append] at h2

theorem strContains_submitFailMsg_code (code : Nat) (text : String) :
    strContains (submitFailMsg code text) (toString code) = true := by
  rw [submitFailMsg, String.append_assoc]
  exact strContains_pre_post _ _ _

theorem strContains_submitFailMsg_text (code : Nat) (text : String) :
    strContains (submitFailMsg code text) text = true := by
  rw [submitFailMsg]
  exact strContains_pre _ _

theorem generateVideo_reaches_download (cfg : CredConfig) (endpoint apiVersion : String)
    (svc : ServiceModel) (timeout : Nat) (jid : String) (sjob : JobData)
    (g : Generation) (gs : List Generation)
    (hcode : svc.submitCode = 201) (hid : svc.submitId = some jid) (hjid : jid ≠ "")
    (hpoll : (pollJobStatus timeout 10 svc.pollOutcomes).1 = .success sjob)
    (hgens : sjob.generations = g :: gs) :
    generateVideo cfg endpoint apiVersion svc timeout =
      { result :=
          if (svc.download (mkVideoUrl endpoint apiVersion g.id)).statusCode ≠ 200 then
            .error (downloadFailMsg
              (svc.download (mkVideoUrl endpoint apiVersion g.id)).statusCode
              (svc.download (mkVideoUrl endpoint apiVersion g.id)).text)
          else .ok (svc.download (mkVideoUrl endpoint apiVersion g.id)).content,
        resolutions := 2,
        submitHeaders := resolveHeaders cfg 0,
        jobId := some jid,
        pollHeaders := some (resolveHeaders cfg 0),
        pollQueries := (pollJobStatus timeout 10 svc.pollOutcomes).2,
        downloadUrl := some (mkVideoUrl endpoint apiVersion g.id),
        downloadHeaders := some (resolveHeaders cfg 1) } := by
  rw [generateVideo, hid]
  simp only [hcode, hpoll, hgens, ne_eq, not_true_eq_false, if_false, if_neg hjid,
    if_neg (mkVideoUrl_ne_empty endpoint apiVersion g.id)]
  split <;> rfl

/-- Claim C5: end-to-end round trip — when submission answers 201 with a
non-empty job id, polling sees only non-terminal observations and then
`succeeded` with a non-empty generations list before the deadline, and the
GET of the first generation's content URL answers 200 with payload `bytes`,
`generate_video_sync` / `generate_video_async` return exactly `bytes`. -/
theorem generate_video_round_trip (cfg : CredConfig) (endpoint apiVersion : String)
    (svc : ServiceModel) (timeout : Nat) (jid : String)
    (pre : List QueryOutcome) (sjob : JobData) (st gid : String)
    (gs : List Generation) (bytes : List Nat)
    (hcode : svc.submitCode = 201) (hid : svc.submitId = some jid) (hjid : jid ≠ "")
    (houts : svc.pollOutcomes = pre ++ [.response 200 st sjob])
    (hpre : ∀ o ∈ pre, stepOutcome o = .cont)
    (hsucc : sjob.status = some "succeeded")
    (hgens : sjob.generations = ⟨some gid⟩ :: gs)
    (htime : pre.length * 10 < timeout)
    (hdlc : (svc.download (mkVideoUrl endpoint apiVersion (some gid))).statusCode = 200)
    (hdlb : (svc.download (mkVideoUrl endpoint apiVersion (some gid))).content = bytes) :
    (generateVideo cfg endpoint apiVersion svc timeout).result = .ok bytes := by
  have hpoll : (pollJobStatus timeout 10 svc.pollOutcomes).1 = .success sjob := by
    rw [houts, pollJobStatus,
      pollAux_cont_then_success timeout 10 pre sjob st [] 0 hpre hsucc (by omega)]
  rw [generateVideo_reaches_download cfg endpoint apiVersion svc timeout jid sjob
    ⟨some gid⟩ gs hcode hid hjid hpoll hgens]
  simp [hdlc, hdlb]

theorem generate_video_round_trip_witness :
    (generateVideo ⟨some "k", fun _ => ""⟩ "https://ep" "preview"
      ⟨201, some "abc", "",
       [.response 200 "" ⟨some "running", none, []⟩,
        .response 200 "" ⟨some "running", none, []⟩,
        .response 200 "" ⟨some "succeeded", none, [⟨some "g1"⟩]⟩],
       fun url =>
         if url = mkVideoUrl "https://ep" "preview" (some "g1") then
           ⟨200, [0, 1, 86, 73, 68, 69, 79], ""⟩
         else ⟨404, [], "not found"⟩⟩ 100).result =
      .ok [0, 1, 86, 73, 68, 69, 79] :=
  generate_video_round_trip ⟨some "k", fun _ => ""⟩ "https://ep" "preview"
    ⟨201, some "abc", "",
     [.response 200 "" ⟨some "running", none, []⟩,
      .response 200 "" ⟨some "running", none, []⟩,
      .response 200 "" ⟨some "succeeded", none, [⟨some "g1"⟩]⟩],
     fun url =>
       if url = mkVideoUrl "https://ep" "preview" (some "g1") then
         ⟨200, [0, 1, 86, 73, 68, 69, 79], ""⟩
       else ⟨404, [], "not found"⟩⟩ 100 "abc"
    [.response 200 "" ⟨some "running", none, []⟩,
     .response 200 "" ⟨some "running", none, []⟩]
    ⟨some "succeeded", none, [⟨some "g1"⟩]⟩ "" "g1" [] [0, 1, 86, 73, 68, 69, 79]
    rfl rfl (by decide) rfl (by decide) rfl rfl (by decide) (by simp) (by simp)

/-- Claim C6 counterexample: with a federated credential whose successive
token acquisitions differ, a successful end-to-end run performs two
credential resolutions, and the download request carries a header set
different from the one used by submission and polling — refuting
"credentials are resolved exactly once". -/
theorem generate_video_double_resolution :
    (generateVideo ⟨none, fun k => "tok" ++ toString k⟩ "ep" "v"
        ⟨201, some "abc", "",
         [.response 200 "" ⟨some "succeeded", none, [⟨some "g1"⟩]⟩],
         fun _ => ⟨200, [7], ""⟩⟩ 100).resolutions = 2 ∧
    (generateVideo ⟨none, fun k => "tok" ++ toString k⟩ "ep" "v"
        ⟨201, some "abc", "",
         [.response 200 "" ⟨some "succeeded", none, [⟨some "g1"⟩]⟩],
         fun _ => ⟨200, [7], ""⟩⟩ 100).downloadHeaders ≠
      some (generateVideo ⟨none, fun k => "tok" ++ toString k⟩ "ep" "v"
        ⟨201, some "abc", "",
         [.response 200 "" ⟨some "succeeded", none, [⟨some "g1"⟩]⟩],
         fun _ => ⟨200, [7], ""⟩⟩ 100).submitHeaders := by
  constructor
  · rfl
  · decide

/-- Claim C6 (amended): on every run that reaches the download stage,
credentials are resolved once before submission, the submit request and the
poller share that first header set, and the download step performs a second
resolution and uses the freshly resolved set — two resolutions in total. -/
theorem generate_video_credential_flow (cfg : CredConfig)
    (endpoint apiVersion : String) (svc : ServiceModel) (timeout : Nat)
    (jid : String) (sjob : JobData) (g : Generation) (gs : List Generation)
    (hcode : svc.submitCode = 201) (hid : svc.submitId = some jid) (hjid : jid ≠ "")
    (hpoll : (pollJobStatus timeout 10 svc.pollOutcomes).1 = .success sjob)
    (hgens : sjob.generations = g :: gs) :
    (generateVideo cfg endpoint apiVersion svc timeout).resolutions = 2 ∧
    (generateVideo cfg endpoint apiVersion svc timeout).submitHeaders =
      resolveHeaders cfg 0 ∧
    (generateVideo cfg endpoint apiVersion svc timeout).pollHeaders =
      some (resolveHeaders cfg 0) ∧
    (generateVideo cfg endpoint apiVersion svc timeout).downloadHeaders =
      some (resolveHeaders cfg 1) := by
  rw [generateVideo_reaches_download cfg endpoint apiVersion svc timeout jid sjob
    g gs hcode hid hjid hpoll hgens]
  exact ⟨rfl, rfl, rfl, rfl⟩

theorem generate_video_credential_flow_witness :
    (generateVideo ⟨none, fun k => "tok" ++ toString k⟩ "ep" "v"
        ⟨201, some "abc", "",
         [.response 200 "" ⟨some "succeeded", none, [⟨some "g1"⟩]⟩],
         fun _ => ⟨200, [7], ""⟩⟩ 100).resolutions = 2 ∧
    (generateVideo ⟨none, fun k => "tok" ++ toString k⟩ "ep" "v"
        ⟨201, some "abc", "",
         [.response 200 "" ⟨some "succeeded", none, [⟨some "g1"⟩]⟩],
         fun _ => ⟨200, [7], ""⟩⟩ 100).submitHeaders =
      resolveHeaders ⟨none, fun k => "tok" ++ toString k⟩ 0 ∧
    (generateVideo ⟨none, fun k => "tok" ++ toString k⟩ "ep" "v"
        ⟨201, some "abc", "",
         [.response 200 "" ⟨some "succeeded", none, [⟨some "g1"⟩]⟩],
         fun _ => ⟨200, [7], ""⟩⟩ 100).pollHeaders =
      some (resolveHeaders ⟨none, fun k => "tok" ++ toString k⟩ 0) ∧
    (generateVideo ⟨none, fun k => "tok" ++ toString k⟩ "ep" "v"
        ⟨201, some "abc", "",
         [.response 200 "" ⟨some "succeeded", none, [⟨some "g1"⟩]⟩],
         fun _ => ⟨200, [7], ""⟩⟩ 100).downloadHeaders =
      some (resolveHeaders ⟨none, fun k => "tok" ++ toString k⟩ 1) :=
  generate_video_credential_flow ⟨none, fun k => "tok" ++ toString k⟩ "ep" "v"
    ⟨201, some "abc", "",
     [.response 200 "" ⟨some "succeeded", none, [⟨some "g1"⟩]⟩],
     fun _ => ⟨200, [7], ""⟩⟩ 100 "abc"
    ⟨some "succeeded", none, [⟨some "g1"⟩]⟩ ⟨some "g1"⟩ []
    rfl rfl (by decide) (by decide) rfl

/-- Claim C7: submission contract — a 201 response with a non-empty `id`
makes the run proceed with that id as the job id; any other status raises
`submitFailMsg`, whose text carries the status code and the body text, with
no polling attempted; a 201 response whose body lacks `id` or carries an
empty one raises the no-job-id protocol error, again with no polling. -/
theorem generate_video_submission_contract (cfg : CredConfig)
    (endpoint apiVersion : String) (svc : ServiceModel) (timeout : Nat)
    (jid : String) :
    ((svc.submitCode = 201 ∧ svc.submitId = some jid ∧ jid ≠ "") →
      (generateVideo cfg endpoint apiVersion svc timeout).jobId = some jid) ∧
    (svc.submitCode ≠ 201 →
      (generateVideo cfg endpoint apiVersion svc timeout).result =
          .error (submitFailMsg svc.submitCode svc.submitText) ∧
      strContains (submitFailMsg svc.submitCode svc.submitText)
          (toString svc.submitCode) = true ∧
      strContains (submitFailMsg svc.submitCode svc.submitText)
          svc.submitText = true ∧
      (generateVideo cfg endpoint apiVersion svc timeout).pollHeaders = none ∧
      (generateVideo cfg endpoint apiVersion svc timeout).pollQueries = 0) ∧
    ((svc.submitCode = 201 ∧ (svc.submitId = none ∨ svc.submitId = some "")) →
      (generateVideo cfg endpoint apiVersion svc timeout).result =
          .error "No job ID returned from video generation API" ∧
      (generateVideo cfg endpoint apiVersion svc timeout).pollHeaders = none ∧
      (generateVideo cfg endpoint apiVersion svc timeout).pollQueries = 0) := by
  refine ⟨?_, ?_, ?_⟩
  · rintro ⟨hcode, hid, hjid⟩
    rw [generateVideo, hid]
    simp only [hcode, ne_eq, not_true_eq_false, if_false, if_neg hjid]
    split <;> (try split) <;> (try split) <;> (try split) <;> rfl
  · intro hne
    rw [generateVideo, if_pos hne]
    exact ⟨rfl, strContains_submitFailMsg_code _ _,
      strContains_submitFailMsg_text _ _, rfl, rfl⟩
  · rintro ⟨hcode, hid | hid⟩ <;>
      rw [generateVideo, hid] <;> simp [hcode]

theorem generate_video_submission_contract_witness :
    (generateVideo ⟨some "k", fun _ => ""⟩ "ep" "v"
        ⟨201, some "abc", "", [], fun _ => ⟨404, [], ""⟩⟩ 100).jobId = some "abc" ∧
    ((generateVideo ⟨some "k", fun _ => ""⟩ "ep" "v"
        ⟨500, none, "Internal Server Error", [], fun _ => ⟨404, [], ""⟩⟩ 100).result =
        .error (submitFailMsg 500 "Internal Server Error") ∧
      strContains (submitFailMsg 500 "Internal Server Error") (toString 500) = true ∧
      strContains (submitFailMsg 500 "Internal Server Error")
        "Internal Server Error" = true ∧
      (generateVideo ⟨some "k", fun _ => ""⟩ "ep" "v"
        ⟨500, none, "Internal Server Error", [], fun _ => ⟨404, [], ""⟩⟩ 100).pollHeaders
        = none ∧
      (generateVideo ⟨some "k", fun _ => ""⟩ "ep" "v"
        ⟨500, none, "Internal Server Error", [], fun _ => ⟨404, [], ""⟩⟩ 100).pollQueries
        = 0) ∧
    ((generateVideo ⟨some "k", fun _ => ""⟩ "ep" "v"
        ⟨201, none, "", [], fun _ => ⟨404, [], ""⟩⟩ 100).result =
        .error "No job ID returned from video generation API" ∧
      (generateVideo ⟨some "k", fun _ => ""⟩ "ep" "v"
        ⟨201, none, "", [], fun _ => ⟨404, [], ""⟩⟩ 100).pollHeaders = none ∧
      (generateVideo ⟨some "k", fun _ => ""⟩ "ep" "v"
        ⟨201, none, "", [], fun _ => ⟨404, [], ""⟩⟩ 100).pollQueries = 0) :=
  ⟨(generate_video_submission_contract ⟨some "k", fun _ => ""⟩ "ep" "v"
      ⟨201, some "abc", "", [], fun _ => ⟨404, [], ""⟩⟩ 100 "abc").1
      ⟨rfl, rfl, by decide⟩,
   (generate_video_submission_contract ⟨some "k", fun _ => ""⟩ "ep" "v"
      ⟨500, none, "Internal Server Error", [], fun _ => ⟨404, [], ""⟩⟩ 100 "x").2.1
      (by decide),
   (generate_video_submission_contract ⟨some "k", fun _ => ""⟩ "ep" "v"
      ⟨201, none, "", [], fun _ => ⟨404, [], ""⟩⟩ 100 "x").2.2
      ⟨rfl, Or.inl rfl⟩⟩

/-- Claim C8: when the poller hands back a succeeded job whose `generations`
list is empty (absent keys parse to the empty list), the result-fetching
step raises the no-videos protocol error and attempts no download: no URL is
built, no download headers are resolved, and only the initial credential
resolution has happened. -/
theorem generate_video_empty_generations (cfg : CredConfig)
    (endpoint apiVersion : String) (svc : ServiceModel) (timeout : Nat)
    (jid : String) (sjob : JobData)
    (hcode : svc.submitCode = 201) (hid : svc.submitId = some jid) (hjid : jid ≠ "")
    (hpoll : (pollJobStatus timeout 10 svc.pollOutcomes).1 = .success sjob)
    (hgens : sjob.generations = []) :
    (generateVideo cfg endpoint apiVersion svc timeout).result =
        .error "No videos found in completed job" ∧
    (generateVideo cfg endpoint apiVersion svc timeout).downloadUrl = none ∧
    (generateVideo cfg endpoint apiVersion svc timeout).downloadHeaders = none ∧
    (generateVideo cfg endpoint apiVersion svc timeout).resolutions = 1 := by
  rw [generateVideo, hid]
  simp [hcode, hjid, hpoll, hgens]

theorem generate_video_empty_generations_witness :
    (generateVideo ⟨some "k", fun _ => ""⟩ "ep" "v"
        ⟨201, some "abc", "",
         [.response 200 "" ⟨some "succeeded", none, []⟩],
         fun _ => ⟨200, [7], ""⟩⟩ 100).result =
        .error "No videos found in completed job" ∧
    (generateVideo ⟨some "k", fun _ => ""⟩ "ep" "v"
        ⟨201, some "abc", "",
         [.response 200 "" ⟨some "succeeded", none, []⟩],
         fun _ => ⟨200, [7], ""⟩⟩ 100).downloadUrl = none ∧
    (generateVideo ⟨some "k", fun _ => ""⟩ "ep" "v"
        ⟨201, some "abc", "",
         [.response 200 "" ⟨some "succeeded", none, []⟩],
         fun _ => ⟨200, [7], ""⟩⟩ 100).downloadHeaders = none ∧
    (generateVideo ⟨some "k", fun _ => ""⟩ "ep" "v"
        ⟨201, some "abc", "",
         [.response 200 "" ⟨some "succeeded", none, []⟩],
         fun _ => ⟨200, [7], ""⟩⟩ 100).resolutions = 1 :=
  generate_video_empty_generations ⟨some "k", fun _ => ""⟩ "ep" "v"
    ⟨201, some "abc", "",
     [.response 200 "" ⟨some "succeeded", none, []⟩],
     fun _ => ⟨200, [7], ""⟩⟩ 100 "abc" ⟨some "succeeded", none, []⟩
    rfl rfl (by decide) (by decide) rfl

/-- Claim C10: when the first generation of a succeeded job lacks an `id`
key, URL resolution raises nothing: the generation id is `None`, the
constructed URL is non-empty and embeds the text `None`, the
`if not video_url` guard can never fire (the URL is non-empty for every
input, so the guard is dead code), and the client resolves fresh download
headers and attempts to download that malformed URL. -/
theorem generate_video_none_generation_id (cfg : CredConfig)
    (endpoint apiVersion : String) (svc : ServiceModel) (timeout : Nat)
    (jid : String) (sjob : JobData) (gs : List Generation)
    (hcode : svc.submitCode = 201) (hid : svc.submitId = some jid) (hjid : jid ≠ "")
    (hpoll : (pollJobStatus timeout 10 svc.pollOutcomes).1 = .success sjob)
    (hgens : sjob.generations = ⟨none⟩ :: gs) :
    (generateVideo cfg endpoint apiVersion svc timeout).downloadUrl =
        some (mkVideoUrl endpoint apiVersion none) ∧
    strContains (mkVideoUrl endpoint apiVersion none) "None" = true ∧
    (∀ e a gid, mkVideoUrl e a gid ≠ "") ∧
    (generateVideo cfg endpoint apiVersion svc timeout).downloadHeaders =
        some (resolveHeaders cfg 1) := by
  rw [generateVideo_reaches_download cfg endpoint apiVersion svc timeout jid sjob
    ⟨none⟩ gs hcode hid hjid hpoll hgens]
  refine ⟨rfl, ?_, fun e a gid => mkVideoUrl_ne_empty e a gid, rfl⟩
  rw [mkVideoUrl]
  simp only [pyStr]
  rw [String.append_assoc, String.append_assoc]
  exact strContains_pre_post _ _ _

theorem generate_video_none_generation_id_witness :
    (generateVideo ⟨some "k", fun _ => ""⟩ "ep" "v"
        ⟨201, some "abc", "",
         [.response 200 "" ⟨some "succeeded", none, [⟨none⟩]⟩],
         fun _ => ⟨200, [7], ""⟩⟩ 100).downloadUrl =
        some (mkVideoUrl "ep" "v" none) ∧
    strContains (mkVideoUrl "ep" "v" none) "None" = true ∧
    (∀ e a gid, mkVideoUrl e a gid ≠ "") ∧
    (generateVideo ⟨some "k", fun _ => ""⟩ "ep" "v"
        ⟨201, some "abc", "",
         [.response 200 "" ⟨some "succeeded", none, [⟨none⟩]⟩],
         fun _ => ⟨200, [7], ""⟩⟩ 100).downloadHeaders =
        some (resolveHeaders ⟨some "k", fun _ => ""⟩ 1) :=
  generate_video_none_generation_id ⟨some "k", fun _ => ""⟩ "ep" "v"
    ⟨201, some "abc", "",
     [.response 200 "" ⟨some "succeeded", none, [⟨none⟩]⟩],
     fun _ => ⟨200, [7], ""⟩⟩ 100 "abc"
    ⟨some "succeeded", none, [⟨none⟩]⟩ []
    rfl rfl (by decide) (by decide) rfl

end SoraClient

namespace GptImageClient

/-- `self.headers` built in `GptImageClient.__init__` — identical in
`gptimageclient.py` and `Image/FoundryImageClient/GptImageClient.py`: the
api-key credential plus a JSON content type. -/
def clientHeaders (apiKey : String) : List (String × String) :=
  [("api-key", apiKey), ("Content-Type", "application/json")]

/-- Header set sent by `generate_image_sync` / `generate_image_async` with
their JSON bodies: `self.headers` unchanged. -/
def generateImageHeaders (apiKey : String) : List (String × String) :=
  clientHeaders apiKey

/-- Header set sent by `edit_image_sync` with its multipart body
(`client.post(url, headers=self.headers, files=files)`): `self.headers`
unchanged — the `Content-Type` entry is NOT removed.  Identical in both
copies of the client. -/
def editImageSyncHeaders (apiKey : String) : List (String × String) :=
  clientHeaders apiKey

/-- Header set sent by `edit_image_async` with its multipart body:
`headers = self.headers.copy()` followed by `del headers["Content-Type"]`. -/
def editImageAsyncHeaders (apiKey : String) : List (String × String) :=
  (clientHeaders apiKey).filter (fun kv => kv.1 != "Content-Type")

/-- Claim C9 (code bug, evaluated at the failing input): with any key, here
`"k"`, the multipart `edit_image_sync` request keeps
`Content-Type: application/json` in its header set — contradicting the
stated contract that multipart requests omit `Content-Type` so the transport
can set its own boundary — while the multipart `edit_image_async` request
does omit it (keeping the credential header), and JSON-bodied generation
requests carry `Content-Type: application/json` as stated. -/
theorem edit_sync_content_type_kept :
    ("Content-Type", "application/json") ∈ editImageSyncHeaders "k" ∧
    ("api-key", "k") ∈ editImageSyncHeaders "k" ∧
    "Content-Type" ∉ (editImageAsyncHeaders "k").map Prod.fst ∧
    ("api-key", "k") ∈ editImageAsyncHeaders "k" ∧
    ("Content-Type", "application/json") ∈ generateImageHeaders "k" := by
  decide

end GptImageClient
